import Mathlib

/-!
A shallow embedding of the `v-log` crate's core: the event data model
(`Metadata`, `Record`, `Visual` and its style enums), the backend contract
(`VLog`), the global registration protocol (`set_vlogger`, `vlogger`) and the
per-visual-kind dispatch functions of `__private_api`.

Modelling conventions:
* `f64` is modelled by the exact rationals (`F64 := Rat`).  The dispatch layer
  never performs floating-point arithmetic: coordinate and size values are
  only moved from call sites into `Record`s, so any value type with decidable
  equality and the literals used by the code is a faithful model.
* A backend (`dyn VLog`) is modelled by its three methods acting on an
  explicit internal-state type `σ`: `enabled` reads the state, `vlog` and
  `clear` transform it (their observable effect).  A spy backend over
  `σ := List Call` records the exact sequence of backend method calls.
* `fmt::Arguments` is modelled by the already-formatted `String`.
* The pair of statics `VLOGGER`/`STATE` of lib.rs is the structure
  `GlobalState`; the sequential semantics of the installation functions are
  explicit state-passing functions on it.
-/

/-- The model of `f64` values moved around by the dispatch layer (see the
module comment: no floating-point arithmetic ever happens on them). -/
abbrev F64 := Rat

/-- `std::panic::Location`: a source file name and line. -/
structure Location where
  file : String
  line : Nat
  deriving DecidableEq, Repr

/-- `Metadata` (lib.rs): the surface and target of one vlog command. -/
structure Metadata where
  surface : String
  target : String
  deriving DecidableEq, Repr

/-- `MetadataBuilder` (lib.rs). -/
structure MetadataBuilder where
  metadata : Metadata
  deriving DecidableEq, Repr

/-- `MetadataBuilder::new`: starts from surface `""`, target `""`. -/
def MetadataBuilder.new : MetadataBuilder :=
  { metadata := { surface := "", target := "" } }

/-- Setter for `Metadata::surface`. -/
def MetadataBuilder.surface (b : MetadataBuilder) (surface : String) : MetadataBuilder :=
  { b with metadata := { b.metadata with surface := surface } }

/-- Setter for `Metadata::target`. -/
def MetadataBuilder.target (b : MetadataBuilder) (target : String) : MetadataBuilder :=
  { b with metadata := { b.metadata with target := target } }

/-- `MetadataBuilder::build`: returns (a clone of) the metadata. -/
def MetadataBuilder.build (b : MetadataBuilder) : Metadata :=
  b.metadata

/-- `Metadata::builder`. -/
def Metadata.builder : MetadataBuilder :=
  MetadataBuilder.new

/-- `MaybeStaticStr` (lib.rs): a string reference that is either `'static` or
borrowed; both carry the same string value. -/
inductive MaybeStaticStr where
  | Static (s : String)
  | Borrowed (s : String)
  deriving DecidableEq, Repr

/-- `MaybeStaticStr::get`. -/
def MaybeStaticStr.get : MaybeStaticStr → String
  | .Static s => s
  | .Borrowed s => s

/-- `PointStyle` (lib.rs). -/
inductive PointStyle where
  | FilledCircle
  | Circle
  | DashedCircle
  | FilledSquare
  | Square
  | DashedSquare
  | Point
  | PointOutline
  | PointSquare
  | PointSquareOutline
  | PointCross
  | PointDiamond
  | PointDiamondOutline
  deriving DecidableEq, Repr

/-- `LineStyle` (lib.rs). -/
inductive LineStyle where
  | Simple
  | Dashed
  | Arrow
  | InsideHarpoonCCW
  | InsideHarpoonCW
  deriving DecidableEq, Repr

/-- `TextAlignment` (lib.rs); `Flexible` is the `#[default]` variant. -/
inductive TextAlignment where
  | Left
  | Center
  | Right
  | Flexible
  deriving DecidableEq, Repr

instance : Inhabited TextAlignment := ⟨.Flexible⟩

/-- `Color` (lib.rs); `Base` is the `#[default]` variant.  `Hex` carries the
`u32` RGBA code, modelled as the corresponding natural number (the code never
computes with it, it is stored and read back verbatim). -/
inductive Color where
  | Base
  | Healthy
  | Info
  | Warn
  | Error
  | X
  | Y
  | Z
  | Hex (rgba : Nat)
  deriving DecidableEq, Repr

/-- `Visual` (lib.rs); `Message` is the `#[default]` variant. -/
inductive Visual where
  | Message
  | Label (x y z : F64) (alignment : TextAlignment)
  | Point (x y z : F64) (style : PointStyle)
  | Line (x1 y1 z1 x2 y2 z2 : F64) (style : LineStyle)
  deriving DecidableEq, Repr

/-- `Record` (lib.rs).  The fields `module_path` and `file` of the source are
named `module_path_field` and `file_field` here so that the accessor
functions of the same source names can be declared beside the projections. -/
structure Record where
  metadata : Metadata
  visual : Visual
  color : Color
  size : F64
  args : String
  module_path_field : Option MaybeStaticStr
  file_field : Option MaybeStaticStr
  line : Option Nat
  deriving DecidableEq, Repr

/-- `Record::module_path` accessor. -/
def Record.module_path (r : Record) : Option String :=
  r.module_path_field.map MaybeStaticStr.get

/-- `Record::module_path_static` accessor: `Some` only for a `'static` string. -/
def Record.module_path_static (r : Record) : Option String :=
  match r.module_path_field with
  | some (.Static s) => some s
  | _ => none

/-- `Record::file` accessor. -/
def Record.file (r : Record) : Option String :=
  r.file_field.map MaybeStaticStr.get

/-- `Record::file_static` accessor: `Some` only for a `'static` string. -/
def Record.file_static (r : Record) : Option String :=
  match r.file_field with
  | some (.Static s) => some s
  | _ => none

/-- `Record::target` accessor. -/
def Record.target (r : Record) : String :=
  r.metadata.target

/-- `Record::surface` accessor. -/
def Record.surface (r : Record) : String :=
  r.metadata.surface

/-- `RecordBuilder` (lib.rs). -/
structure RecordBuilder where
  record : Record
  deriving DecidableEq, Repr

/-- `RecordBuilder::new` with the documented defaults: visual `Message`,
color `Base`, size `12.0`, empty args, default metadata, no source location. -/
def RecordBuilder.new : RecordBuilder :=
  { record :=
      { visual := .Message
        color := .Base
        size := 12
        args := ""
        metadata := Metadata.builder.build
        module_path_field := none
        file_field := none
        line := none } }

/-- Setter for `Record::visual`. -/
def RecordBuilder.visual (b : RecordBuilder) (visual : Visual) : RecordBuilder :=
  { b with record := { b.record with visual := visual } }

/-- Setter for `Record::color`. -/
def RecordBuilder.color (b : RecordBuilder) (color : Color) : RecordBuilder :=
  { b with record := { b.record with color := color } }

/-- Setter for `Record::size`. -/
def RecordBuilder.size (b : RecordBuilder) (size : F64) : RecordBuilder :=
  { b with record := { b.record with size := size } }

/-- Setter for `Record::args`. -/
def RecordBuilder.args (b : RecordBuilder) (args : String) : RecordBuilder :=
  { b with record := { b.record with args := args } }

/-- Setter for `Record::metadata`. -/
def RecordBuilder.metadata (b : RecordBuilder) (metadata : Metadata) : RecordBuilder :=
  { b with record := { b.record with metadata := metadata } }

/-- Setter for `Metadata::surface` through the record builder. -/
def RecordBuilder.surface (b : RecordBuilder) (surface : String) : RecordBuilder :=
  { b with record := { b.record with metadata := { b.record.metadata with surface := surface } } }

/-- Setter for `Metadata::target` through the record builder. -/
def RecordBuilder.target (b : RecordBuilder) (target : String) : RecordBuilder :=
  { b with record := { b.record with metadata := { b.record.metadata with target := target } } }

/-- Setter for `Record::module_path` (borrowed string). -/
def RecordBuilder.module_path (b : RecordBuilder) (path : Option String) : RecordBuilder :=
  { b with record := { b.record with module_path_field := path.map MaybeStaticStr.Borrowed } }

/-- Setter for `Record::module_path` to a `'static` string. -/
def RecordBuilder.module_path_static (b : RecordBuilder) (path : Option String) : RecordBuilder :=
  { b with record := { b.record with module_path_field := path.map MaybeStaticStr.Static } }

/-- Setter for `Record::file` (borrowed string). -/
def RecordBuilder.file (b : RecordBuilder) (file : Option String) : RecordBuilder :=
  { b with record := { b.record with file_field := file.map MaybeStaticStr.Borrowed } }

/-- Setter for `Record::file` to a `'static` string. -/
def RecordBuilder.file_static (b : RecordBuilder) (file : Option String) : RecordBuilder :=
  { b with record := { b.record with file_field := file.map MaybeStaticStr.Static } }

/-- Setter for `Record::line`. -/
def RecordBuilder.line (b : RecordBuilder) (line : Option Nat) : RecordBuilder :=
  { b with record := { b.record with line := line } }

/-- `RecordBuilder::build`: returns (a clone of) the record. -/
def RecordBuilder.build (b : RecordBuilder) : Record :=
  b.record

/-- `Record::builder`. -/
def Record.builder : RecordBuilder :=
  RecordBuilder.new

/-- The `VLog` trait: a backend is its three methods acting on an explicit
internal-state type `σ`.  `enabled` reads the state (the source's `&self`,
documented as pure), `vlog` and `clear` transform it. -/
structure VLog (σ : Type) where
  enabled : σ → Metadata → Bool
  vlog : σ → Record → σ
  clear : σ → String → σ

/-- `NopVLogger` (lib.rs): `enabled` is constantly false, `vlog` and `clear`
do nothing (identity on the backend state). -/
def NopVLogger (σ : Type) : VLog σ where
  enabled _ _ := false
  vlog s _ := s
  clear s _ := s

/-- The tri-state `STATE` flag of lib.rs: `uninit`, `installing` and
`installed` model the constants of value 0, 1 and 2 (in that order). -/
inductive RegState where
  | uninit
  | installing
  | installed
  deriving DecidableEq, Repr

/-- The two statics of lib.rs: the `VLOGGER` slot (initially the no-op
backend) and the tri-state `STATE` flag (initially `uninit`). -/
structure GlobalState (σ : Type) where
  VLOGGER : VLog σ
  STATE : RegState

/-- The starting global state. -/
def GlobalState.new (σ : Type) : GlobalState σ :=
  { VLOGGER := NopVLogger σ, STATE := .uninit }

/-- `SetVLoggerError` (lib.rs): the only error kind, with no payload. -/
structure SetVLoggerError where
  deriving Repr

instance : DecidableEq SetVLoggerError :=
  fun a b => isTrue (by cases a; cases b; rfl)

/-- `vlogger()` (lib.rs): returns the no-op backend unless the flag reads
`installed`, in which case it returns the published slot. -/
def vlogger {σ : Type} (g : GlobalState σ) : VLog σ :=
  if g.STATE = .installed then g.VLOGGER else NopVLogger σ

/-- `set_vlogger_inner` (lib.rs), as one sequential step: the successful
compare-and-set from `uninit` publishes `make_vlogger ()` and flips the flag
to `installed`; from `installed` it fails immediately.  On the `installing`
branch the source spin-waits until the flag leaves that value and then
returns the error without writing anything itself; sequentially this caller
changes nothing, so the model returns the error with the state unchanged by
this call. -/
def set_vlogger_inner {σ : Type} (g : GlobalState σ) (make_vlogger : Unit → VLog σ) :
    Except SetVLoggerError Unit × GlobalState σ :=
  match g.STATE with
  | .uninit => (Except.ok (), { VLOGGER := make_vlogger (), STATE := .installed })
  | .installing => (Except.error ⟨⟩, g)
  | .installed => (Except.error ⟨⟩, g)

/-- `set_vlogger` (lib.rs). -/
def set_vlogger {σ : Type} (g : GlobalState σ) (v : VLog σ) :
    Except SetVLoggerError Unit × GlobalState σ :=
  set_vlogger_inner g (fun _ => v)

/-- `set_vlogger_racy` (lib.rs).  `none` models the `installing` branch, which
the source declares unreachable and aborts on; the other two branches mirror
`set_vlogger_inner`. -/
def set_vlogger_racy {σ : Type} (g : GlobalState σ) (v : VLog σ) :
    Option (Except SetVLoggerError Unit × GlobalState σ) :=
  match g.STATE with
  | .uninit => some (Except.ok (), { VLOGGER := v, STATE := .installed })
  | .installing => none
  | .installed => some (Except.error ⟨⟩, g)

namespace __private_api

/-- `GlobalVLogger` (__private_api.rs): the proxy backend whose every method
looks up `vlogger()` and delegates.  Its state is the registration state
paired with the backends' internal state. -/
def GlobalVLogger (σ : Type) : VLog (GlobalState σ × σ) where
  enabled w metadata := (vlogger w.1).enabled w.2 metadata
  vlog w record := (w.1, (vlogger w.1).vlog w.2 record)
  clear w surface := (w.1, (vlogger w.1).clear w.2 surface)

/-- `__private_api::clear`: gated on `enabled` over a metadata built from the
target and surface; calls the backend's `clear` with the surface only when
enabled. -/
def clear {τ : Type} (L : VLog τ) (s : τ) (target surface : String) : τ :=
  if L.enabled s (((MetadataBuilder.new.target target).surface surface).build)
  then L.clear s surface
  else s

/-- `__private_api::vlog`: assembles the `Record` through the builder chain of
the source and hands it to the backend's `vlog`.  Note the source performs no
`enabled` check here. -/
def vlog {τ : Type} (L : VLog τ) (s : τ) (args : String) (visual : Visual)
    (size : F64) (color : Color) (surface : String)
    (target_module_path_and_loc : String × String × Location) : τ :=
  let target := target_module_path_and_loc.1
  let module_path := target_module_path_and_loc.2.1
  let loc := target_module_path_and_loc.2.2
  L.vlog s
    (RecordBuilder.new
      |>.args args
      |>.visual visual
      |>.size size
      |>.color color
      |>.surface surface
      |>.target target
      |>.module_path_static (some module_path)
      |>.file_static (some loc.file)
      |>.line (some loc.line)
      |>.build)

/-- `__private_api::vlog_point`: the first three elements of the position
iterator give x, y, z, each defaulting to `0.0` when missing. -/
def vlog_point {τ : Type} (L : VLog τ) (s : τ) (args : String) (pos : List F64)
    (diameter : F64) (color : Color) (style : PointStyle) (surface : String)
    (target_module_path_and_loc : String × String × Location) : τ :=
  vlog L s args
    (Visual.Point (pos.getD 0 0) (pos.getD 1 0) (pos.getD 2 0) style)
    diameter color surface target_module_path_and_loc

/-- `__private_api::vlog_line`. -/
def vlog_line {τ : Type} (L : VLog τ) (s : τ) (args : String) (pos1 pos2 : List F64)
    (thickness : F64) (color : Color) (style : LineStyle) (surface : String)
    (target_module_path_and_loc : String × String × Location) : τ :=
  vlog L s args
    (Visual.Line (pos1.getD 0 0) (pos1.getD 1 0) (pos1.getD 2 0)
      (pos2.getD 0 0) (pos2.getD 1 0) (pos2.getD 2 0) style)
    thickness color surface target_module_path_and_loc

/-- `__private_api::vlog_label`. -/
def vlog_label {τ : Type} (L : VLog τ) (s : τ) (args : String) (pos : List F64)
    (size : F64) (color : Color) (alignment : TextAlignment) (surface : String)
    (target_module_path_and_loc : String × String × Location) : τ :=
  vlog L s args
    (Visual.Label (pos.getD 0 0) (pos.getD 1 0) (pos.getD 2 0) alignment)
    size color surface target_module_path_and_loc

/-- `__private_api::vlog_message`: note the source passes size `0.0`. -/
def vlog_message {τ : Type} (L : VLog τ) (s : τ) (args : String) (color : Color)
    (surface : String) (target_module_path_and_loc : String × String × Location) : τ :=
  vlog L s args Visual.Message 0 color surface target_module_path_and_loc

/-- `__private_api::enabled`. -/
def enabled {τ : Type} (L : VLog τ) (s : τ) (surface target : String) : Bool :=
  L.enabled s (((Metadata.builder.surface surface).target target).build)

end __private_api

/-- One observable backend method call, for the spy backend. -/
inductive Call where
  | vlog (record : Record)
  | clear (surface : String)
  deriving DecidableEq, Repr

/-- A spy backend: `enabled` is the supplied predicate, `vlog` and `clear`
append the call they receive to the trace.  Every backend behaviour the
dispatch layer can distinguish is an instance of this shape. -/
def SpyVLogger (en : Metadata → Bool) : VLog (List Call) where
  enabled _ metadata := en metadata
  vlog s record := s ++ [Call.vlog record]
  clear s surface := s ++ [Call.clear surface]

/-- The loop of the `__line!` macro arms for two or more points (macros.rs):
starting from `last`, emit one `vlog_line` call per element of `todo` (with
empty format args), and return the final state together with the final value
of the macro's `last` variable. -/
def polyline_go {τ : Type} (L : VLog τ) (size : F64) (color : Color)
    (style : LineStyle) (surface : String)
    (tml : String × String × Location) :
    List F64 → List (List F64) → τ → τ × List F64
  | last, [], s => (s, last)
  | last, next :: rest, s =>
      polyline_go L size color style surface tml next rest
        (__private_api.vlog_line L s "" last next size color style surface tml)

/-- The `__line!` macro expansion (macros.rs) for a point sequence
`p1 :: rest` with at least two points: the open arm walks the consecutive
pairs; the closed arm (trailing comma at the call site) additionally emits a
segment from the final `last` back to the cloned `first` point `p1`. -/
def vlog_polyline {τ : Type} (L : VLog τ) (s : τ) (p1 : List F64)
    (rest : List (List F64)) (size : F64) (color : Color) (style : LineStyle)
    (surface : String) (tml : String × String × Location)
    (closed : Bool) : τ :=
  let p := polyline_go L size color style surface tml p1 rest s
  if closed then __private_api.vlog_line L p.1 "" p.2 p1 size color style surface tml
  else p.1

/-- The backend call `__private_api.vlog_line` makes for the segment from `a`
to `b`: specification vocabulary for the trace theorems below (compare
`vlog_line` and the `RecordBuilder` chain of `__private_api.vlog`). -/
def lineCall (size : F64) (color : Color) (style : LineStyle) (surface : String)
    (tml : String × String × Location) (args : String) (a b : List F64) : Call :=
  Call.vlog
    { metadata := { surface := surface, target := tml.1 }
      visual := .Line (a.getD 0 0) (a.getD 1 0) (a.getD 2 0)
        (b.getD 0 0) (b.getD 1 0) (b.getD 2 0) style
      color := color
      size := size
      args := args
      module_path_field := some (.Static tml.2.1)
      file_field := some (.Static tml.2.2.file)
      line := some tml.2.2.line }

theorem vlog_line_spy (en : Metadata → Bool) (t : List Call) (args : String)
    (a b : List F64) (size : F64) (color : Color) (style : LineStyle)
    (surface : String) (tml : String × String × Location) :
    __private_api.vlog_line (SpyVLogger en) t args a b size color style surface tml
      = t ++ [lineCall size color style surface tml args a b] := rfl

theorem polyline_go_spy (en : Metadata → Bool) (size : F64) (color : Color)
    (style : LineStyle) (surface : String) (tml : String × String × Location) :
    ∀ (todo : List (List F64)) (last : List F64) (t : List Call),
    polyline_go (SpyVLogger en) size color style surface tml last todo t
      = (t ++ ((last :: todo).zip todo).map
            (fun ab => lineCall size color style surface tml "" ab.1 ab.2),
         todo.getLastD last)
  | [], last, t => by simp [polyline_go]
  | next :: rest, last, t => by
      rw [polyline_go, vlog_line_spy,
        polyline_go_spy en size color style surface tml rest next,
        List.getLastD_cons]
      simp [List.zip_cons_cons]

/-- C1: the visual-kind dispatch functions do not consult `enabled` at all.
With a spy backend whose `enabled` is constantly false, each of
`vlog_message`, `vlog_point`, `vlog_line` and `vlog_label` still constructs a
`Record` and calls the backend's `vlog`: the dispatch-invocation count is 1,
not 0, and the full dispatched record is exhibited for the point case. -/
theorem dispatch_ignores_enabled_gate :
    (__private_api.vlog_message (SpyVLogger fun _ => false) [] "m" Color.Base "S"
      ("t", "mp", { file := "f", line := 7 })).length = 1
    ∧ (__private_api.vlog_point (SpyVLogger fun _ => false) [] "" [1, 2] 5 Color.Base
        PointStyle.Point "S" ("t", "mp", { file := "f", line := 7 })).length = 1
    ∧ (__private_api.vlog_line (SpyVLogger fun _ => false) [] "" [0, 0] [1, 0] 5 Color.Base
        LineStyle.Simple "S" ("t", "mp", { file := "f", line := 7 })).length = 1
    ∧ (__private_api.vlog_label (SpyVLogger fun _ => false) [] "l" [1, 2] 12 Color.Base
        TextAlignment.Flexible "S" ("t", "mp", { file := "f", line := 7 })).length = 1
    ∧ __private_api.vlog_point (SpyVLogger fun _ => false) [] "" [1, 2] 5 Color.Base
        PointStyle.Point "S" ("t", "mp", { file := "f", line := 7 })
      = [Call.vlog
          { metadata := { surface := "S", target := "t" }
            visual := .Point 1 2 0 .Point
            color := .Base
            size := 5
            args := ""
            module_path_field := some (.Static "mp")
            file_field := some (.Static "f")
            line := some 7 }] :=
  ⟨rfl, rfl, rfl, rfl, rfl⟩

/-- C6 counterexample: `vlog_message` hands the backend a `Record` whose size
is 0, not 12: the claim fails at this input. -/
theorem vlog_message_size_not_twelve :
    __private_api.vlog_message (SpyVLogger fun _ => true) [] "m" Color.Base "S"
        ("t", "mp", { file := "f", line := 7 })
      = [Call.vlog
          { metadata := { surface := "S", target := "t" }
            visual := .Message
            color := .Base
            size := 0
            args := "m"
            module_path_field := some (.Static "mp")
            file_field := some (.Static "f")
            line := some 7 }]
    ∧ ¬ (0 : F64) = 12 :=
  ⟨rfl, by decide⟩

/-- C6 amended: every `Record` assembled by `vlog_message` carries size 0;
the `0.0` passed by the source overrides the builder's default of 12.0. -/
theorem vlog_message_size_zero (en : Metadata → Bool) (t : List Call)
    (args : String) (c : Color) (surface target mp : String) (loc : Location) :
    __private_api.vlog_message (SpyVLogger en) t args c surface (target, mp, loc)
      = t ++ [Call.vlog
          { metadata := { surface := surface, target := target }
            visual := .Message
            color := c
            size := 0
            args := args
            module_path_field := some (.Static mp)
            file_field := some (.Static loc.file)
            line := some loc.line }] := rfl

/-- C7: `clear` builds `Metadata { target, surface }`, asks the backend's
`enabled`, and calls the backend's `clear` with exactly the supplied surface
when it answers true; when it answers false no backend call beyond `enabled`
is made (the trace is unchanged). -/
theorem clear_enabled_gate (en : Metadata → Bool) (target surface : String)
    (t : List Call) :
    __private_api.clear (SpyVLogger en) t target surface
      = (if en { surface := surface, target := target }
         then t ++ [Call.clear surface]
         else t) := rfl

/-- C4: with a backend whose `enabled` always answers true, dispatching a
point at position `[1, 2]` with diameter 5, the default (macro `"o"`) style
and surface `"S"` hands the backend exactly one `Record`, with visual
`Point x=1 y=2 z=0`, size 5 and `metadata.surface = "S"`; and in general a
position sequence of up to three coordinates has its missing trailing
coordinates defaulted to 0. -/
theorem vlog_point_record (en : Metadata → Bool) (hen : ∀ md, en md = true)
    (args : String) (x y d : F64) (c : Color) (st : PointStyle)
    (target mp : String) (loc : Location) :
    __private_api.vlog_point (SpyVLogger en) [] "" [1, 2] 5 c PointStyle.Point "S"
        (target, mp, loc)
      = [Call.vlog
          { metadata := { surface := "S", target := target }
            visual := .Point 1 2 0 .Point
            color := c
            size := 5
            args := ""
            module_path_field := some (.Static mp)
            file_field := some (.Static loc.file)
            line := some loc.line }]
    ∧ __private_api.vlog_point (SpyVLogger en) [] args [] d c st "S" (target, mp, loc)
      = [Call.vlog
          { metadata := { surface := "S", target := target }
            visual := .Point 0 0 0 st
            color := c
            size := d
            args := args
            module_path_field := some (.Static mp)
            file_field := some (.Static loc.file)
            line := some loc.line }]
    ∧ __private_api.vlog_point (SpyVLogger en) [] args [x] d c st "S" (target, mp, loc)
      = [Call.vlog
          { metadata := { surface := "S", target := target }
            visual := .Point x 0 0 st
            color := c
            size := d
            args := args
            module_path_field := some (.Static mp)
            file_field := some (.Static loc.file)
            line := some loc.line }]
    ∧ __private_api.vlog_point (SpyVLogger en) [] args [x, y] d c st "S" (target, mp, loc)
      = [Call.vlog
          { metadata := { surface := "S", target := target }
            visual := .Point x y 0 st
            color := c
            size := d
            args := args
            module_path_field := some (.Static mp)
            file_field := some (.Static loc.file)
            line := some loc.line }] :=
  ⟨rfl, rfl, rfl, rfl⟩

/-- C4 witness: the theorem at a concrete input, its hypothesis discharged. -/
theorem vlog_point_record_witness :
    __private_api.vlog_point (SpyVLogger fun _ => true) [] "" [1, 2] 5 Color.Base
        PointStyle.Point "S" ("t", "mp", { file := "f", line := 7 })
      = [Call.vlog
          { metadata := { surface := "S", target := "t" }
            visual := .Point 1 2 0 .Point
            color := .Base
            size := 5
            args := ""
            module_path_field := some (.Static "mp")
            file_field := some (.Static "f")
            line := some 7 }]
    ∧ __private_api.vlog_point (SpyVLogger fun _ => true) [] "a" [] 9 Color.Base
        PointStyle.Circle "S" ("t", "mp", { file := "f", line := 7 })
      = [Call.vlog
          { metadata := { surface := "S", target := "t" }
            visual := .Point 0 0 0 .Circle
            color := .Base
            size := 9
            args := "a"
            module_path_field := some (.Static "mp")
            file_field := some (.Static "f")
            line := some 7 }]
    ∧ __private_api.vlog_point (SpyVLogger fun _ => true) [] "a" [3] 9 Color.Base
        PointStyle.Circle "S" ("t", "mp", { file := "f", line := 7 })
      = [Call.vlog
          { metadata := { surface := "S", target := "t" }
            visual := .Point 3 0 0 .Circle
            color := .Base
            size := 9
            args := "a"
            module_path_field := some (.Static "mp")
            file_field := some (.Static "f")
            line := some 7 }]
    ∧ __private_api.vlog_point (SpyVLogger fun _ => true) [] "a" [3, 4] 9 Color.Base
        PointStyle.Circle "S" ("t", "mp", { file := "f", line := 7 })
      = [Call.vlog
          { metadata := { surface := "S", target := "t" }
            visual := .Point 3 4 0 .Circle
            color := .Base
            size := 9
            args := "a"
            module_path_field := some (.Static "mp")
            file_field := some (.Static "f")
            line := some 7 }] :=
  vlog_point_record (fun _ => true) (fun _ => rfl) "a" 3 4 9 Color.Base
    PointStyle.Circle "t" "mp" { file := "f", line := 7 }

/-- C5: an open polyline over `p1 :: p2 :: rest` (n ≥ 2 points) emits exactly
one `Line` record per consecutive pair, in order (n - 1 records); the closed
variant emits one additional record from the macro's final `last` point back
to the first point.  Instantiated on the example `[(0,0), (1,0), (1,1)]`: two
records open, a third record `(1,1) -> (0,0)` closed, with the first record's
full geometry exhibited. -/
theorem polyline_records (en : Metadata → Bool) (size : F64) (c : Color)
    (st : LineStyle) (surface : String) (tml : String × String × Location)
    (p1 p2 : List F64) (rest : List (List F64)) :
    vlog_polyline (SpyVLogger en) [] p1 (p2 :: rest) size c st surface tml false
      = ((p1 :: p2 :: rest).zip (p2 :: rest)).map
          (fun ab => lineCall size c st surface tml "" ab.1 ab.2)
    ∧ vlog_polyline (SpyVLogger en) [] p1 (p2 :: rest) size c st surface tml true
      = ((p1 :: p2 :: rest).zip (p2 :: rest)).map
          (fun ab => lineCall size c st surface tml "" ab.1 ab.2)
        ++ [lineCall size c st surface tml "" ((p2 :: rest).getLastD p1) p1]
    ∧ (vlog_polyline (SpyVLogger en) [] p1 (p2 :: rest) size c st surface tml
        false).length = (p1 :: p2 :: rest).length - 1
    ∧ vlog_polyline (SpyVLogger en) [] [0, 0] [[1, 0], [1, 1]] size c st surface tml false
      = [lineCall size c st surface tml "" [0, 0] [1, 0],
         lineCall size c st surface tml "" [1, 0] [1, 1]]
    ∧ vlog_polyline (SpyVLogger en) [] [0, 0] [[1, 0], [1, 1]] size c st surface tml true
      = [lineCall size c st surface tml "" [0, 0] [1, 0],
         lineCall size c st surface tml "" [1, 0] [1, 1],
         lineCall size c st surface tml "" [1, 1] [0, 0]]
    ∧ lineCall size c st surface tml "" [0, 0] [1, 0]
      = Call.vlog
          { metadata := { surface := surface, target := tml.1 }
            visual := .Line 0 0 0 1 0 0 st
            color := c
            size := size
            args := ""
            module_path_field := some (.Static tml.2.1)
            file_field := some (.Static tml.2.2.file)
            line := some tml.2.2.line } := by
  refine ⟨?_, ?_, ?_, ?_, ?_, rfl⟩
  · rw [vlog_polyline, polyline_go_spy]
    simp
  · rw [vlog_polyline, polyline_go_spy]
    simp [vlog_line_spy]
  · rw [vlog_polyline, polyline_go_spy]
    simp [List.length_zip]
  · rw [vlog_polyline, polyline_go_spy]
    simp
  · rw [vlog_polyline, polyline_go_spy]
    simp [vlog_line_spy]

/-- A full `RecordBuilder` chain using the borrowed-string setters: the build
path exercised by the round-trip theorem. -/
def buildFull (v : Visual) (c : Color) (sz : F64) (a surf t : String)
    (mp fl : Option String) (ln : Option Nat) : Record :=
  RecordBuilder.new
    |>.visual v
    |>.color c
    |>.size sz
    |>.args a
    |>.surface surf
    |>.target t
    |>.module_path mp
    |>.file fl
    |>.line ln
    |>.build

/-- A full `RecordBuilder` chain using the `'static` setters for the source
location strings. -/
def buildFullStatic (v : Visual) (c : Color) (sz : F64) (a surf t : String)
    (mp fl : Option String) (ln : Option Nat) : Record :=
  RecordBuilder.new
    |>.visual v
    |>.color c
    |>.size sz
    |>.args a
    |>.surface surf
    |>.target t
    |>.module_path_static mp
    |>.file_static fl
    |>.line ln
    |>.build

/-- C8: every field set through the `Metadata`/`Record` builders is returned
unchanged by the corresponding accessor, for all field values (arbitrary
visuals including point geometry with any style, any color including
arbitrary `Hex` values, any size, surfaces, targets, and the optional
source-location fields both present and absent, through both the borrowed and
the `'static` setters); fields never set read back as the documented
defaults. -/
theorem builder_roundtrip (v : Visual) (c : Color) (sz : F64)
    (a surf t mp fl : String) (ln : Nat) (x y z : F64) (ps : PointStyle)
    (hex : Nat) :
    (((MetadataBuilder.new.surface surf).target t).build).surface = surf
    ∧ (((MetadataBuilder.new.surface surf).target t).build).target = t
    ∧ MetadataBuilder.new.build = { surface := "", target := "" }
    ∧ (buildFull v c sz a surf t (some mp) (some fl) (some ln)).visual = v
    ∧ (buildFull v c sz a surf t (some mp) (some fl) (some ln)).color = c
    ∧ (buildFull v c sz a surf t (some mp) (some fl) (some ln)).size = sz
    ∧ (buildFull v c sz a surf t (some mp) (some fl) (some ln)).args = a
    ∧ (buildFull v c sz a surf t (some mp) (some fl) (some ln)).surface = surf
    ∧ (buildFull v c sz a surf t (some mp) (some fl) (some ln)).target = t
    ∧ (buildFull v c sz a surf t (some mp) (some fl) (some ln)).metadata
        = { surface := surf, target := t }
    ∧ (buildFull v c sz a surf t (some mp) (some fl) (some ln)).module_path = some mp
    ∧ (buildFull v c sz a surf t (some mp) (some fl) (some ln)).module_path_static = none
    ∧ (buildFull v c sz a surf t (some mp) (some fl) (some ln)).file = some fl
    ∧ (buildFull v c sz a surf t (some mp) (some fl) (some ln)).file_static = none
    ∧ (buildFull v c sz a surf t (some mp) (some fl) (some ln)).line = some ln
    ∧ (buildFullStatic v c sz a surf t (some mp) (some fl) (some ln)).module_path = some mp
    ∧ (buildFullStatic v c sz a surf t (some mp) (some fl)
        (some ln)).module_path_static = some mp
    ∧ (buildFullStatic v c sz a surf t (some mp) (some fl) (some ln)).file = some fl
    ∧ (buildFullStatic v c sz a surf t (some mp) (some fl) (some ln)).file_static = some fl
    ∧ (buildFull v c sz a surf t none none none).module_path = none
    ∧ (buildFull v c sz a surf t none none none).module_path_static = none
    ∧ (buildFull v c sz a surf t none none none).file = none
    ∧ (buildFull v c sz a surf t none none none).file_static = none
    ∧ (buildFull v c sz a surf t none none none).line = none
    ∧ (buildFull (.Point x y z ps) c sz a surf t none none none).visual = .Point x y z ps
    ∧ (buildFull v (.Hex hex) sz a surf t none none none).color = .Hex hex
    ∧ ((RecordBuilder.new.metadata { surface := surf, target := t }).build).metadata
        = { surface := surf, target := t }
    ∧ RecordBuilder.new.build
        = { metadata := { surface := "", target := "" }
            visual := .Message
            color := .Base
            size := 12
            args := ""
            module_path_field := none
            file_field := none
            line := none } :=
  ⟨rfl, rfl, rfl, rfl, rfl, rfl, rfl, rfl, rfl, rfl, rfl, rfl, rfl, rfl,
   rfl, rfl, rfl, rfl, rfl, rfl, rfl, rfl, rfl, rfl, rfl, rfl, rfl, rfl⟩

/-- A sequence of `set_vlogger` calls, threading the global state: the list
of results together with the final state. -/
def installSeq {σ : Type} (g : GlobalState σ) :
    List (VLog σ) → List (Except SetVLoggerError Unit) × GlobalState σ
  | [] => ([], g)
  | v :: vs =>
      let p := set_vlogger g v
      let q := installSeq p.2 vs
      (p.1 :: q.1, q.2)

theorem installSeq_installed {σ : Type} (vs : List (VLog σ)) :
    ∀ g : GlobalState σ, g.STATE = RegState.installed →
      installSeq g vs = (vs.map (fun _ => Except.error ⟨⟩), g) := by
  induction vs with
  | nil => intro g _; rfl
  | cons v vs ih =>
      intro g h
      obtain ⟨V, st⟩ := g
      cases h
      simp [installSeq, set_vlogger, set_vlogger_inner,
        ih { VLOGGER := V, STATE := .installed } rfl]

/-- C2: before any successful installation (flag `uninit` or `installing`),
`vlogger` returns the no-op backend, whose `enabled` answers false for every
`Metadata` and whose `vlog` and `clear` leave the backend state unchanged. -/
theorem vlogger_uninstalled_nop {σ : Type} (g : GlobalState σ) (md : Metadata)
    (s : σ) (r : Record) (surface : String)
    (h : g.STATE = RegState.uninit ∨ g.STATE = RegState.installing) :
    vlogger g = NopVLogger σ
    ∧ (vlogger g).enabled s md = false
    ∧ (vlogger g).vlog s r = s
    ∧ (vlogger g).clear s surface = s := by
  have hv : vlogger g = NopVLogger σ := by
    rcases h with h | h <;> simp [vlogger, h]
  exact ⟨hv, by rw [hv]; rfl, by rw [hv]; rfl, by rw [hv]; rfl⟩

/-- A concrete record for the witness statements below. -/
def sampleRecord : Record := RecordBuilder.new.build

/-- A concrete backend over the trivial state, distinct in behaviour from the
no-op backend (its `enabled` answers true). -/
def unitBackend : VLog Unit where
  enabled _ _ := true
  vlog s _ := s
  clear s _ := s

/-- The starting global state over the trivial backend state. -/
def g0 : GlobalState Unit := GlobalState.new Unit

/-- C2 witness: the theorem at the starting state. -/
theorem vlogger_uninstalled_nop_witness :
    vlogger g0 = NopVLogger Unit
    ∧ (vlogger g0).enabled () { surface := "S", target := "t" } = false
    ∧ (vlogger g0).vlog () sampleRecord = ()
    ∧ (vlogger g0).clear () "S" = () :=
  vlogger_uninstalled_nop g0 { surface := "S", target := "t" } () sampleRecord "S"
    (Or.inl rfl)

/-- C3: starting from the uninstalled state, the first `set_vlogger` call
returns `Ok` and permanently installs its backend: every subsequent attempt
(any number of retries) returns the `AlreadyInstalled` error and leaves the
state, hence the backend returned by `vlogger`, unchanged; an attempt while
an installation is in flight also returns the error and changes nothing. -/
theorem set_vlogger_first_wins {σ : Type} (g : GlobalState σ) (v : VLog σ)
    (vs : List (VLog σ)) (h : g.STATE = RegState.uninit) :
    (installSeq g (v :: vs)).1 = Except.ok () :: vs.map (fun _ => Except.error ⟨⟩)
    ∧ (installSeq g (v :: vs)).2 = { VLOGGER := v, STATE := RegState.installed }
    ∧ vlogger (installSeq g (v :: vs)).2 = v
    ∧ set_vlogger { VLOGGER := g.VLOGGER, STATE := RegState.installing } v
        = (Except.error ⟨⟩, { VLOGGER := g.VLOGGER, STATE := RegState.installing }) := by
  obtain ⟨V, st⟩ := g
  cases h
  have h1 : set_vlogger { VLOGGER := V, STATE := RegState.uninit } v
      = (Except.ok (), { VLOGGER := v, STATE := RegState.installed }) := rfl
  refine ⟨?_, ?_, ?_, rfl⟩
  · simp [installSeq, h1,
      installSeq_installed vs { VLOGGER := v, STATE := .installed } rfl]
  · simp [installSeq, h1,
      installSeq_installed vs { VLOGGER := v, STATE := .installed } rfl]
  · simp [installSeq, h1,
      installSeq_installed vs { VLOGGER := v, STATE := .installed } rfl, vlogger]

/-- C3 witness: the theorem at the starting state with two further install
attempts. -/
theorem set_vlogger_first_wins_witness :
    (installSeq g0 (unitBackend :: [NopVLogger Unit, unitBackend])).1
      = Except.ok () :: [NopVLogger Unit, unitBackend].map (fun _ => Except.error ⟨⟩)
    ∧ (installSeq g0 (unitBackend :: [NopVLogger Unit, unitBackend])).2
      = { VLOGGER := unitBackend, STATE := RegState.installed }
    ∧ vlogger (installSeq g0 (unitBackend :: [NopVLogger Unit, unitBackend])).2
      = unitBackend
    ∧ set_vlogger { VLOGGER := g0.VLOGGER, STATE := RegState.installing } unitBackend
      = (Except.error ⟨⟩, { VLOGGER := g0.VLOGGER, STATE := RegState.installing }) :=
  set_vlogger_first_wins g0 unitBackend [NopVLogger Unit, unitBackend] rfl

/-- C10: under the precondition that no installation is in flight (the flag
is not `installing`), `set_vlogger_racy` never reaches its aborting branch
(the result is `some _`): from the uninstalled state it installs the backend
and returns `Ok`, and from the installed state it returns the
`AlreadyInstalled` error with the state, hence the installed backend,
unchanged. -/
theorem set_vlogger_racy_no_panic {σ : Type} (g : GlobalState σ) (v : VLog σ)
    (h : g.STATE ≠ RegState.installing) :
    set_vlogger_racy g v
      = some (if g.STATE = RegState.uninit
              then (Except.ok (), { VLOGGER := v, STATE := RegState.installed })
              else (Except.error ⟨⟩, g)) := by
  obtain ⟨V, st⟩ := g
  cases st
  · rfl
  · exact absurd rfl h
  · rfl

/-- C10 witness: the theorem at the starting state. -/
theorem set_vlogger_racy_no_panic_witness :
    set_vlogger_racy g0 unitBackend
      = some (if g0.STATE = RegState.uninit
              then (Except.ok (), { VLOGGER := unitBackend, STATE := RegState.installed })
              else (Except.error ⟨⟩, g0)) :=
  set_vlogger_racy_no_panic g0 unitBackend (by decide)

/-- C9: each method of the `GlobalVLogger` proxy produces exactly the result
and backend effect of the same method called directly on the backend returned
by `vlogger` (the registration state is never changed by the proxy), and
every dispatch function applied through the proxy equals the same dispatch
through the current global backend. -/
theorem global_proxy_delegates {σ : Type} (w : GlobalState σ × σ) (md : Metadata)
    (r : Record) (surface target args mp : String) (loc : Location)
    (pos pos2 : List F64) (sz : F64) (c : Color) (ps : PointStyle)
    (ls : LineStyle) (ta : TextAlignment) :
    (__private_api.GlobalVLogger σ).enabled w md = (vlogger w.1).enabled w.2 md
    ∧ (__private_api.GlobalVLogger σ).vlog w r = (w.1, (vlogger w.1).vlog w.2 r)
    ∧ (__private_api.GlobalVLogger σ).clear w surface
      = (w.1, (vlogger w.1).clear w.2 surface)
    ∧ __private_api.clear (__private_api.GlobalVLogger σ) w target surface
      = (w.1, __private_api.clear (vlogger w.1) w.2 target surface)
    ∧ __private_api.vlog_message (__private_api.GlobalVLogger σ) w args c surface
        (target, mp, loc)
      = (w.1, __private_api.vlog_message (vlogger w.1) w.2 args c surface
          (target, mp, loc))
    ∧ __private_api.vlog_point (__private_api.GlobalVLogger σ) w args pos sz c ps
        surface (target, mp, loc)
      = (w.1, __private_api.vlog_point (vlogger w.1) w.2 args pos sz c ps surface
          (target, mp, loc))
    ∧ __private_api.vlog_line (__private_api.GlobalVLogger σ) w args pos pos2 sz c ls
        surface (target, mp, loc)
      = (w.1, __private_api.vlog_line (vlogger w.1) w.2 args pos pos2 sz c ls surface
          (target, mp, loc))
    ∧ __private_api.vlog_label (__private_api.GlobalVLogger σ) w args pos sz c ta
        surface (target, mp, loc)
      = (w.1, __private_api.vlog_label (vlogger w.1) w.2 args pos sz c ta surface
          (target, mp, loc)) := by
  refine ⟨rfl, rfl, rfl, ?_, rfl, rfl, rfl, rfl⟩
  rw [__private_api.clear, __private_api.clear]
  cases hb : (vlogger w.1).enabled w.2
      (((MetadataBuilder.new.target target).surface surface).build) <;>
    simp [__private_api.GlobalVLogger, hb]
